import Mathlib

/-
Verification of the weather dashboard core (src/streamlit_app.py):
the weather client `fetch_weather` and the hourly normalizer
`make_hourly_df`.  The Python functions are shallowly embedded below;
library behaviour (requests, pandas) is modelled at the level the
source exercises it.
-/

/-- Decoded JSON values, as produced by `resp.json()` / consumed by pandas.
Numbers are modelled as rationals (the provider sends decimal floats that
never round-trip through binary arithmetic in the code under study). -/
inductive Json where
  | null : Json
  | bool (b : Bool) : Json
  | num (q : Rat) : Json
  | str (s : String) : Json
  | arr (xs : List Json) : Json
  | obj (kvs : List (String × Json)) : Json

/-- Python dict lookup (`d.get(k)`): first binding of the key, if any
(keys of a decoded JSON object are unique, so first match is the match). -/
def dictGet {α : Type} : List (String × α) → String → Option α
  | [], _ => none
  | (k, v) :: rest, key => if k = key then some v else dictGet rest key

/-- Python truthiness of a decoded JSON value (`if not hourly: ...`):
None, False, 0, empty string, empty list and empty dict are falsy. -/
def jsonFalsy : Json → Bool
  | Json.null => true
  | Json.bool b => !b
  | Json.num q => q == 0
  | Json.str s => s == ""
  | Json.arr xs => xs.isEmpty
  | Json.obj kvs => kvs.isEmpty

/-- A point on the pandas datetime axis: a parsed civil timestamp, a
numeric epoch offset (pandas interprets bare numbers as epoch values),
or NaT (pandas maps null to "not a time"). -/
inductive Timestamp where
  | civil (year month day hour minute : Nat) : Timestamp
  | epoch (q : Rat) : Timestamp
  | nat_t : Timestamp
deriving DecidableEq, Repr

/-- Numeric value of a decimal digit character, if it is one. -/
def digitVal (c : Char) : Option Nat :=
  if c.isDigit then some (c.toNat - 48) else none

/-- Models pandas timestamp parsing restricted to the ISO minute format the
provider sends ("YYYY-MM-DDTHH:MM"); strings outside this shape (or with
out-of-range fields) are malformed and fail to parse. -/
def parseTimestamp (s : String) : Option Timestamp :=
  match s.toList with
  | [y1, y2, y3, y4, c1, m1, m2, c2, d1, d2, c3, h1, h2, c4, n1, n2] =>
    if c1 = '-' ∧ c2 = '-' ∧ c3 = 'T' ∧ c4 = ':' then
      match digitVal y1, digitVal y2, digitVal y3, digitVal y4,
            digitVal m1, digitVal m2, digitVal d1, digitVal d2,
            digitVal h1, digitVal h2, digitVal n1, digitVal n2 with
      | some a, some b, some c, some d, some e, some f,
        some g, some h, some i, some j, some k, some l =>
        let mo := 10 * e + f
        let da := 10 * g + h
        let ho := 10 * i + j
        let mi := 10 * k + l
        if 1 ≤ mo ∧ mo ≤ 12 ∧ 1 ≤ da ∧ da ≤ 31 ∧ ho ≤ 23 ∧ mi ≤ 59 then
          some (Timestamp.civil (1000 * a + 100 * b + 10 * c + d) mo da ho mi)
        else none
      | _, _, _, _, _, _, _, _, _, _, _, _ => none
    else none
  | _ => none

/-- Elementwise behaviour of `pd.to_datetime` on one cell: strings are
parsed, numbers become epoch offsets, null becomes NaT; anything else
(booleans, nested containers) raises. -/
def cellToDatetime : Json → Option Timestamp
  | Json.str s => parseTimestamp s
  | Json.num q => some (Timestamp.epoch q)
  | Json.null => some Timestamp.nat_t
  | _ => none

/-- Sequence a fallible function over a list: all results, or the first
failure (models the all-or-nothing behaviour of `pd.to_datetime` on a
column: one bad cell fails the whole conversion). -/
def traverseOpt {α β : Type} (f : α → Option β) : List α → Option (List β)
  | [] => some []
  | x :: xs =>
    match f x, traverseOpt f xs with
    | some y, some ys => some (y :: ys)
    | _, _ => none

/-- Row index of a DataFrame: the default positional RangeIndex, or a
datetime index installed by `set_index("time")`. -/
inductive DFIndex where
  | range (n : Nat) : DFIndex
  | time (ts : List Timestamp) : DFIndex
deriving DecidableEq

/-- Column-oriented model of a pandas DataFrame: named columns in order,
each a list of cells, plus the row index. -/
structure DataFrame where
  cols : List (String × List Json)
  index : DFIndex

/-- The empty DataFrame `pd.DataFrame()`: zero rows, zero columns. -/
def emptyDF : DataFrame := ⟨[], DFIndex.range 0⟩

/-- Column labels of a DataFrame (`df.columns`), in order. -/
def DataFrame.colNames (df : DataFrame) : List String :=
  df.cols.map Prod.fst

/-- Errors the normalizer can surface: `constructorError` is the
ValueError pandas raises when `pd.DataFrame` is called on a non-mapping
or on non-array values, `lengthMismatch` is the ValueError "All arrays
must be of the same length", and `parseError` is the parse failure
raised by `pd.to_datetime` on a malformed timestamp. -/
inductive DFError where
  | constructorError : DFError
  | lengthMismatch : DFError
  | parseError : DFError
deriving DecidableEq, Repr

/-- Extract every field of the hourly mapping as a (key, array) column,
failing if some field is not an array.  (pandas broadcasts scalars in
some cases; the provider only ever sends arrays and every claim below
concerns array-valued fields, so the scalar branch is conservatively an
error.) -/
def allArrays : List (String × Json) → Option (List (String × List Json))
  | [] => some []
  | (k, Json.arr xs) :: rest => (allArrays rest).map (fun cs => (k, xs) :: cs)
  | _ :: _ => none

/-- All columns have the same number of rows. -/
def sameLengths : List (String × List Json) → Bool
  | [] => true
  | c :: rest => rest.all (fun p => p.2.length == c.2.length)

/-- Number of rows of a column-oriented table (length of the first
column; 0 when there are no columns). -/
def numRows : List (String × List Json) → Nat
  | [] => 0
  | c :: _ => c.2.length

/-- Models `pd.DataFrame(hourly)` on the decoded hourly section:
column-oriented construction from the mapping's parallel arrays, with the
default RangeIndex; arrays of mismatched lengths raise ValueError, as
does a non-mapping argument. -/
def pdDataFrame : Json → Except DFError DataFrame
  | Json.obj kvs =>
    match allArrays kvs with
    | none => Except.error DFError.constructorError
    | some cols =>
      if sameLengths cols then Except.ok ⟨cols, DFIndex.range (numRows cols)⟩
      else Except.error DFError.lengthMismatch
  | _ => Except.error DFError.constructorError

/-- Models the pair of statements
`df["time"] = pd.to_datetime(df["time"]); df = df.set_index("time")`:
convert the time column to datetimes (failing on any malformed cell) and
install it as the row index, removing it from the columns. -/
def setTimeIndex (df : DataFrame) : Except DFError DataFrame :=
  match dictGet df.cols "time" with
  | none => Except.ok df
  | some vals =>
    match traverseOpt cellToDatetime vals with
    | none => Except.error DFError.parseError
    | some ts =>
      Except.ok ⟨df.cols.filter (fun p => p.1 != "time"), DFIndex.time ts⟩

/-- The rename mapping of the source applied to one column label: the
four known Open-Meteo field names become display labels, every other
label is left unchanged (`df.rename` ignores keys that are not column
labels, so restricting the mapping to present columns, as the source
does, is the same as applying this function to every label). -/
def renameCol (s : String) : String :=
  if s = "temperature_2m" then "Temperature (°C)"
  else if s = "relative_humidity_2m" then "Humidity (%)"
  else if s = "precipitation" then "Precipitation (mm)"
  else if s = "wind_speed_10m" then "Wind speed (km/h)"
  else s

/-- Apply the rename mapping to every column label of a DataFrame. -/
def renameCols (df : DataFrame) : DataFrame :=
  ⟨df.cols.map (fun p => (renameCol p.1, p.2)), df.index⟩

/-- Embedding of `make_hourly_df` (src/streamlit_app.py, lines 31-55):
take the hourly section (defaulting to the empty mapping), return the
empty DataFrame if it is falsy, otherwise build a DataFrame from it,
install the parsed time index when a `time` column is present, and
rename the known columns to display labels.  Exceptions the Python code
lets escape are the `Except.error` results. -/
def make_hourly_df (weather_json : List (String × Json)) :
    Except DFError DataFrame :=
  let hourly := (dictGet weather_json "hourly").getD (Json.obj [])
  if jsonFalsy hourly then Except.ok emptyDF
  else
    match pdDataFrame hourly with
    | Except.error e => Except.error e
    | Except.ok df =>
      match (if df.colNames.contains "time" then setTimeIndex df
             else Except.ok df) with
      | Except.error e => Except.error e
      | Except.ok df2 => Except.ok (renameCols df2)

/-- The provider endpoint (source constant `OPEN_METEO_URL`). -/
def OPEN_METEO_URL : String := "https://api.open-meteo.com/v1/forecast"

/-- A query-parameter value as passed to `requests.get`: the source
passes floats (coordinates), a boolean and strings. -/
inductive ParamVal where
  | num (q : Rat) : ParamVal
  | bool (b : Bool) : ParamVal
  | str (s : String) : ParamVal
deriving DecidableEq, Repr

/-- One outbound HTTP request as issued by `requests.get`: URL, query
parameters in order, and the timeout in seconds. -/
structure HttpRequest where
  url : String
  params : List (String × ParamVal)
  timeout : Nat
deriving DecidableEq, Repr

/-- What the network does with one request: a response with an HTTP
status and (when the payload decodes as JSON) a decoded body, a timeout,
or a connection failure. -/
inductive FetchOutcome where
  | response (status : Nat) (body : Option Json) : FetchOutcome
  | timedOut : FetchOutcome
  | connectionFailed : FetchOutcome

/-- The exceptions `fetch_weather` can let escape, all subclasses of
requests.RequestException: the HTTPError from `raise_for_status`, a
timeout, a connection failure, or a JSON decode failure from
`resp.json()`. -/
inductive FetchError where
  | httpError (status : Nat) : FetchError
  | timeoutError : FetchError
  | connectionError : FetchError
  | jsonDecodeError : FetchError
deriving DecidableEq, Repr

/-- Models `resp.raise_for_status()`: requests raises HTTPError exactly
for client-error and server-error statuses, 400 ≤ status < 600. -/
def raise_for_status (status : Nat) : Except FetchError Unit :=
  if 400 ≤ status ∧ status < 600 then Except.error (FetchError.httpError status)
  else Except.ok ()

/-- Embedding of `fetch_weather` (src/streamlit_app.py, lines 12-28).
The network is a pure oracle from requests to outcomes; the second
component of the result records every outbound request issued, so that
"single attempt, no retry" is observable.  The first component is the
decoded body on success or the escaping exception. -/
def fetch_weather (net : HttpRequest → FetchOutcome)
    (latitude longitude : Rat) :
    Except FetchError Json × List HttpRequest :=
  let params : List (String × ParamVal) :=
    [("latitude", ParamVal.num latitude),
     ("longitude", ParamVal.num longitude),
     ("current_weather", ParamVal.bool true),
     ("hourly",
      ParamVal.str "temperature_2m,relative_humidity_2m,precipitation,wind_speed_10m"),
     ("timezone", ParamVal.str "auto")]
  let req : HttpRequest := ⟨OPEN_METEO_URL, params, 10⟩
  let result : Except FetchError Json :=
    match net req with
    | FetchOutcome.timedOut => Except.error FetchError.timeoutError
    | FetchOutcome.connectionFailed => Except.error FetchError.connectionError
    | FetchOutcome.response status body =>
      match raise_for_status status with
      | Except.error e => Except.error e
      | Except.ok _ =>
        match body with
        | some j => Except.ok j
        | none => Except.error FetchError.jsonDecodeError
  (result, [req])

/-- The one request `fetch_weather` builds for a coordinate pair. -/
def fetchRequest (latitude longitude : Rat) : HttpRequest :=
  ⟨OPEN_METEO_URL,
   [("latitude", ParamVal.num latitude),
    ("longitude", ParamVal.num longitude),
    ("current_weather", ParamVal.bool true),
    ("hourly",
     ParamVal.str "temperature_2m,relative_humidity_2m,precipitation,wind_speed_10m"),
    ("timezone", ParamVal.str "auto")],
   10⟩

/-- The value `fetch_weather` produces as a function of what the network
returned for its one request. -/
def fetchOutcomeResult : FetchOutcome → Except FetchError Json
  | FetchOutcome.timedOut => Except.error FetchError.timeoutError
  | FetchOutcome.connectionFailed => Except.error FetchError.connectionError
  | FetchOutcome.response status body =>
    match raise_for_status status with
    | Except.error e => Except.error e
    | Except.ok _ =>
      match body with
      | some j => Except.ok j
      | none => Except.error FetchError.jsonDecodeError

/-- Characterization of `fetch_weather`: it issues exactly the one
request `fetchRequest latitude longitude` and maps the network's answer
through `fetchOutcomeResult`. -/
theorem fetch_weather_eq (net : HttpRequest → FetchOutcome)
    (latitude longitude : Rat) :
    fetch_weather net latitude longitude =
      (fetchOutcomeResult (net (fetchRequest latitude longitude)),
       [fetchRequest latitude longitude]) := by
  cases h : net (fetchRequest latitude longitude) with
  | timedOut =>
    simp only [fetch_weather, fetchRequest, fetchOutcomeResult] at h ⊢
    rw [h]
  | connectionFailed =>
    simp only [fetch_weather, fetchRequest, fetchOutcomeResult] at h ⊢
    rw [h]
  | response status body =>
    simp only [fetch_weather, fetchRequest, fetchOutcomeResult] at h ⊢
    rw [h]

/-- A successful dict lookup means the key occurs among the keys. -/
theorem mem_keys_of_dictGet {α : Type} {kvs : List (String × α)} {k : String}
    {v : α} (h : dictGet kvs k = some v) : k ∈ kvs.map Prod.fst := by
  induction kvs with
  | nil => simp [dictGet] at h
  | cons c rest ih =>
    rw [dictGet] at h
    by_cases hc : c.1 = k
    · simp [hc]
    · rcases c with ⟨k1, v1⟩
      simp only [hc, if_neg] at h
      simp only [List.map_cons, List.mem_cons]
      exact Or.inr (ih h)

/-- A key among the keys is found by dict lookup. -/
theorem dictGet_isSome_of_mem_keys {α : Type} {kvs : List (String × α)}
    {k : String} (h : k ∈ kvs.map Prod.fst) : ∃ v, dictGet kvs k = some v := by
  induction kvs with
  | nil => simp at h
  | cons c rest ih =>
    rcases c with ⟨k1, v1⟩
    by_cases hc : k1 = k
    · exact ⟨v1, by simp [dictGet, hc]⟩
    · rw [List.map_cons, List.mem_cons] at h
      rcases h with h | h
      · exact absurd h.symm hc
      · rcases ih h with ⟨v, hv⟩
        exact ⟨v, by simp [dictGet, hc, hv]⟩

/-- Column extraction preserves the keys, in order. -/
theorem allArrays_keys {kvs : List (String × Json)}
    {cols : List (String × List Json)} (h : allArrays kvs = some cols) :
    cols.map Prod.fst = kvs.map Prod.fst := by
  induction kvs generalizing cols with
  | nil => simp [allArrays] at h; simp [← h]
  | cons c rest ih =>
    rcases c with ⟨k, v⟩
    cases v with
    | arr xs =>
      rw [allArrays] at h
      cases hrest : allArrays rest with
      | none => rw [hrest] at h; simp [Option.map] at h
      | some cs =>
        rw [hrest] at h
        simp only [Option.map, Option.some.injEq] at h
        subst h
        simp [ih hrest]
    | null => simp [allArrays] at h
    | bool b => simp [allArrays] at h
    | num q => simp [allArrays] at h
    | str s => simp [allArrays] at h
    | obj o => simp [allArrays] at h

/-- Column extraction preserves dict lookups of array-valued fields. -/
theorem allArrays_dictGet {kvs : List (String × Json)}
    {cols : List (String × List Json)} (h : allArrays kvs = some cols)
    {k : String} {xs : List Json}
    (hk : dictGet kvs k = some (Json.arr xs)) : dictGet cols k = some xs := by
  induction kvs generalizing cols with
  | nil => simp [dictGet] at hk
  | cons c rest ih =>
    rcases c with ⟨k1, v1⟩
    cases v1 with
    | arr ys =>
      rw [allArrays] at h
      cases hrest : allArrays rest with
      | none => rw [hrest] at h; simp [Option.map] at h
      | some cs =>
        rw [hrest] at h
        simp only [Option.map, Option.some.injEq] at h
        subst h
        rw [dictGet] at hk ⊢
        by_cases hc : k1 = k
        · simp only [hc, if_pos] at hk ⊢
          rcases hk with hk
          injection hk with hk
          injection hk with hk
          simp [hk]
        · simp only [hc, if_neg] at hk ⊢
          exact ih hrest hk
    | null => simp [allArrays] at h
    | bool b => simp [allArrays] at h
    | num q => simp [allArrays] at h
    | str s => simp [allArrays] at h
    | obj o => simp [allArrays] at h

/-- Traversal fails outright as soon as any element fails. -/
theorem traverseOpt_eq_none {α β : Type} {f : α → Option β} {x : α}
    {xs : List α} (hx : x ∈ xs) (hfx : f x = none) :
    traverseOpt f xs = none := by
  induction xs with
  | nil => cases hx
  | cons y ys ih =>
    rw [traverseOpt]
    rcases List.mem_cons.mp hx with h | h
    · subst h
      rw [hfx]
    · rw [ih h]
      cases f y <;> rfl

/-- When all columns have the same length, each equals the row count. -/
theorem length_eq_numRows_of_sameLengths {cols : List (String × List Json)}
    (h : sameLengths cols = true) {p : String × List Json} (hp : p ∈ cols) :
    p.2.length = numRows cols := by
  cases cols with
  | nil => cases hp
  | cons c rest =>
    rw [sameLengths] at h
    rcases List.mem_cons.mp hp with hph | hph
    · subst hph; rfl
    · have hb := List.all_eq_true.mp h p hph
      simp only [beq_iff_eq] at hb
      exact hb

/-- Two columns of different lengths refute the same-length check. -/
theorem sameLengths_eq_false_of_mismatch {cols : List (String × List Json)}
    {p q : String × List Json} (hp : p ∈ cols) (hq : q ∈ cols)
    (hne : p.2.length ≠ q.2.length) : sameLengths cols = false := by
  cases hsl : sameLengths cols with
  | false => rfl
  | true =>
    exact absurd ((length_eq_numRows_of_sameLengths hsl hp).trans
      (length_eq_numRows_of_sameLengths hsl hq).symm) hne

/-- Columns of one common length pass the same-length check. -/
theorem sameLengths_of_const {cols : List (String × List Json)} {n : Nat}
    (h : ∀ p ∈ cols, p.2.length = n) : sameLengths cols = true := by
  cases cols with
  | nil => rfl
  | cons c rest =>
    rw [sameLengths]
    refine List.all_eq_true.mpr (fun p hp => ?_)
    have h1 : p.2.length = n := h p (List.mem_cons_of_mem _ hp)
    have h2 : c.2.length = n := h c (List.mem_cons_self _ _)
    simp [beq_iff_eq, h1, h2]

/-- Row count of nonempty columns of one common length. -/
theorem numRows_of_const {cols : List (String × List Json)} {n : Nat}
    (h : ∀ p ∈ cols, p.2.length = n) (hc : cols ≠ []) : numRows cols = n := by
  cases cols with
  | nil => exact absurd rfl hc
  | cons c rest => exact h c (List.mem_cons_self _ _)


/-- C1: for every valid coordinate pair (latitude in [-90,90], longitude in
[-180,180]) and every network behaviour, `fetch_weather` issues exactly one
request, to the forecast endpoint, carrying exactly the parameters
latitude, longitude, current_weather=true, the fixed comma-joined hourly
list, timezone=auto, with a 10-second timeout; and whenever the provider
answers that request with HTTP 200 and a decodable body, it returns the
decoded body unchanged. -/
theorem fetch_weather_params_and_success (latitude longitude : Rat)
    (hlat : -90 ≤ latitude ∧ latitude ≤ 90)
    (hlon : -180 ≤ longitude ∧ longitude ≤ 180)
    (net : HttpRequest → FetchOutcome) :
    (fetch_weather net latitude longitude).2 =
      [{ url := "https://api.open-meteo.com/v1/forecast",
         params :=
           [("latitude", ParamVal.num latitude),
            ("longitude", ParamVal.num longitude),
            ("current_weather", ParamVal.bool true),
            ("hourly",
             ParamVal.str "temperature_2m,relative_humidity_2m,precipitation,wind_speed_10m"),
            ("timezone", ParamVal.str "auto")],
         timeout := 10 }] ∧
    ∀ j : Json,
      net (fetchRequest latitude longitude) = FetchOutcome.response 200 (some j) →
      (fetch_weather net latitude longitude).1 = Except.ok j := by
  constructor
  · rw [fetch_weather_eq]
    rfl
  · intro j hj
    rw [fetch_weather_eq]
    simp [fetchOutcomeResult, hj, raise_for_status]

/-- Witness for C1 at latitude 0, longitude 0 and a network answering 200
with body null. -/
theorem fetch_weather_params_and_success_witness :
    (fetch_weather (fun _ => FetchOutcome.response 200 (some Json.null)) 0 0).2 =
      [fetchRequest 0 0] ∧
    (fetch_weather (fun _ => FetchOutcome.response 200 (some Json.null)) 0 0).1 =
      Except.ok Json.null := by
  have h := fetch_weather_params_and_success 0 0
    ⟨by norm_num, by norm_num⟩ ⟨by norm_num, by norm_num⟩
    (fun _ => FetchOutcome.response 200 (some Json.null))
  exact ⟨by rw [h.1]; rfl, h.2 Json.null rfl⟩

/-- C2 counterexample: HTTP 304 is not a 2xx status, yet `fetch_weather`
does not fail there — `raise_for_status` only raises for 4xx/5xx, so the
decoded body is returned. -/
theorem fetch_weather_non2xx_counterexample :
    ¬ (200 ≤ 304 ∧ 304 < 300) ∧
    (fetch_weather (fun _ => FetchOutcome.response 304 (some (Json.obj []))) 0 0).1 =
      Except.ok (Json.obj []) := ⟨by decide, rfl⟩

/-- C2 (amended): for every invocation, `fetch_weather` issues exactly one
outbound attempt, and it fails with an error carrying the underlying
cause (and returns no value) whenever the timeout elapses, the network
fails, or the provider answers with a 4xx/5xx status (400 ≤ status <
600); statuses below 400 are not raised by `raise_for_status`. -/
theorem fetch_weather_single_attempt_and_errors
    (net : HttpRequest → FetchOutcome) (latitude longitude : Rat) :
    (fetch_weather net latitude longitude).2 = [fetchRequest latitude longitude] ∧
    (net (fetchRequest latitude longitude) = FetchOutcome.timedOut →
      (fetch_weather net latitude longitude).1 =
        Except.error FetchError.timeoutError) ∧
    (net (fetchRequest latitude longitude) = FetchOutcome.connectionFailed →
      (fetch_weather net latitude longitude).1 =
        Except.error FetchError.connectionError) ∧
    (∀ status : Nat, ∀ body : Option Json,
      net (fetchRequest latitude longitude) = FetchOutcome.response status body →
      400 ≤ status → status < 600 →
      (fetch_weather net latitude longitude).1 =
        Except.error (FetchError.httpError status)) := by
  refine ⟨by rw [fetch_weather_eq], ?_, ?_, ?_⟩
  · intro h
    rw [fetch_weather_eq]
    simp [fetchOutcomeResult, h]
  · intro h
    rw [fetch_weather_eq]
    simp [fetchOutcomeResult, h]
  · intro status body h h4 h6
    rw [fetch_weather_eq]
    simp [fetchOutcomeResult, h, raise_for_status, h4, h6]

/-- Witness for C2 (amended) at a network answering 500 with an
undecodable body. -/
theorem fetch_weather_single_attempt_and_errors_witness :
    (fetch_weather (fun _ => FetchOutcome.response 500 none) 0 0).2 =
      [fetchRequest 0 0] ∧
    (fetch_weather (fun _ => FetchOutcome.response 500 none) 0 0).1 =
      Except.error (FetchError.httpError 500) := by
  have h := fetch_weather_single_attempt_and_errors
    (fun _ => FetchOutcome.response 500 none) 0 0
  exact ⟨h.1, h.2.2.2 500 none rfl (by norm_num) (by norm_num)⟩

/-- C4: `make_hourly_df` on the empty mapping and on a mapping whose
hourly section is the empty mapping both yield the empty table: zero
columns and a zero-length positional index. -/
theorem make_hourly_df_empty_inputs :
    make_hourly_df [] = Except.ok emptyDF ∧
    make_hourly_df [("hourly", Json.obj [])] = Except.ok emptyDF ∧
    emptyDF.cols = [] ∧ emptyDF.index = DFIndex.range 0 :=
  ⟨rfl, rfl, rfl, rfl⟩

/-- C5: on the hourly section with time ["2024-01-01T00:00",
"2024-01-01T01:00"] and temperature_2m [10, 11], `make_hourly_df` returns
the table with exactly the two parsed timestamps as index, in order, and
the single column "Temperature (°C)" holding [10, 11]. -/
theorem make_hourly_df_two_row_example :
    make_hourly_df
      [("hourly", Json.obj
        [("time",
          Json.arr [Json.str "2024-01-01T00:00", Json.str "2024-01-01T01:00"]),
         ("temperature_2m", Json.arr [Json.num 10, Json.num 11])])] =
      Except.ok
        ⟨[("Temperature (°C)", [Json.num 10, Json.num 11])],
         DFIndex.time
           [Timestamp.civil 2024 1 1 0 0, Timestamp.civil 2024 1 1 1 0]⟩ := rfl

/-- C7: the rename step is idempotent — the rename mapping applied twice
to any column label agrees with applying it once (display labels are
fixed points), and renaming a DataFrame's columns twice equals renaming
them once. -/
theorem rename_idempotent :
    (∀ s : String, renameCol (renameCol s) = renameCol s) ∧
    (∀ df : DataFrame, renameCols (renameCols df) = renameCols df) := by
  have hpt : ∀ s : String, renameCol (renameCol s) = renameCol s := by
    intro s
    by_cases h1 : s = "temperature_2m"
    · subst h1; rfl
    · by_cases h2 : s = "relative_humidity_2m"
      · subst h2; rfl
      · by_cases h3 : s = "precipitation"
        · subst h3; rfl
        · by_cases h4 : s = "wind_speed_10m"
          · subst h4; rfl
          · simp [renameCol, h1, h2, h3, h4]
  refine ⟨hpt, fun df => ?_⟩
  unfold renameCols
  simp only [List.map_map]
  have hf : ((fun p : String × List Json => (renameCol p.1, p.2)) ∘
      (fun p : String × List Json => (renameCol p.1, p.2))) =
      (fun p : String × List Json => (renameCol p.1, p.2)) := by
    funext p
    simp [Function.comp, hpt p.1]
  rw [hf]

/-- C8: the hourly table depends only on the hourly section — any two
responses that agree on the lookup of the "hourly" key (but may differ
arbitrarily elsewhere, in particular in current_weather or current)
yield identical results. -/
theorem make_hourly_df_independent_of_current
    (r1 r2 : List (String × Json))
    (h : dictGet r1 "hourly" = dictGet r2 "hourly") :
    make_hourly_df r1 = make_hourly_df r2 := by
  unfold make_hourly_df
  rw [h]

/-- Witness for C8: a response with a current_weather block and one
without it, agreeing on hourly, normalize identically. -/
theorem make_hourly_df_independent_of_current_witness :
    make_hourly_df
      [("current_weather", Json.obj [("temperature", Json.num 21)]),
       ("hourly", Json.obj [])] =
    make_hourly_df [("hourly", Json.obj [])] :=
  make_hourly_df_independent_of_current _ _ rfl

/-- Unfolding of `make_hourly_df` when the response holds a nonempty
hourly mapping: the truthiness guard passes and the pipeline
(construct, maybe set time index, rename) runs. -/
theorem make_hourly_df_obj {r kvs : List (String × Json)}
    (hr : dictGet r "hourly" = some (Json.obj kvs)) (hne : kvs ≠ []) :
    make_hourly_df r =
      (match pdDataFrame (Json.obj kvs) with
       | Except.error e => Except.error e
       | Except.ok df =>
         match (if df.colNames.contains "time" then setTimeIndex df
                else Except.ok df) with
         | Except.error e => Except.error e
         | Except.ok df2 => Except.ok (renameCols df2)) := by
  have hf : jsonFalsy (Json.obj kvs) = false := by
    cases kvs with
    | nil => exact absurd rfl hne
    | cons c rest => rfl
  unfold make_hourly_df
  rw [hr]
  simp only [Option.getD_some, hf, Bool.false_eq_true, if_false]

/-- C10: when the hourly section's parallel arrays have mismatched
lengths (two field arrays of different lengths), `make_hourly_df` fails
at table construction with the length-mismatch error, returning no table
rather than padding or truncating. -/
theorem make_hourly_df_length_mismatch
    (r kvs : List (String × Json)) (cols : List (String × List Json))
    (p q : String × List Json)
    (hr : dictGet r "hourly" = some (Json.obj kvs))
    (hcols : allArrays kvs = some cols)
    (hp : p ∈ cols) (hq : q ∈ cols)
    (hne : p.2.length ≠ q.2.length) :
    make_hourly_df r = Except.error DFError.lengthMismatch := by
  have hkne : kvs ≠ [] := by
    intro h
    subst h
    simp [allArrays] at hcols
    subst hcols
    exact absurd hp (List.not_mem_nil p)
  rw [make_hourly_df_obj hr hkne]
  simp only [pdDataFrame, hcols]
  simp [sameLengths_eq_false_of_mismatch hp hq hne]

/-- Witness for C10: temperature with one row next to precipitation with
two rows fails with the length-mismatch error. -/
theorem make_hourly_df_length_mismatch_witness :
    make_hourly_df
      [("hourly", Json.obj
        [("temperature_2m", Json.arr [Json.num 1]),
         ("precipitation", Json.arr [Json.num 1, Json.num 2])])] =
      Except.error DFError.lengthMismatch :=
  make_hourly_df_length_mismatch _ _
    [("temperature_2m", [Json.num 1]),
     ("precipitation", [Json.num 1, Json.num 2])]
    ("temperature_2m", [Json.num 1])
    ("precipitation", [Json.num 1, Json.num 2])
    rfl rfl (List.mem_cons_self _ _)
    (List.mem_cons_of_mem _ (List.mem_cons_self _ _)) (by decide)

/-- C3 counterexample: an hourly section whose time array holds a
malformed timestamp but whose arrays have mismatched lengths fails with
the construction (ValueError) error, not the parse error, because
`pd.DataFrame` runs before `pd.to_datetime`. -/
theorem make_hourly_df_malformed_time_counterexample :
    make_hourly_df
      [("hourly", Json.obj
        [("time", Json.arr [Json.str "not-a-time"]),
         ("temperature_2m", Json.arr [Json.num 1, Json.num 2])])] =
      Except.error DFError.lengthMismatch ∧
    DFError.lengthMismatch ≠ DFError.parseError := ⟨rfl, by decide⟩

/-- C3 (amended): when the hourly section's fields are parallel arrays
of one common length (so that table construction succeeds) and its time
array holds at least one malformed timestamp string, `make_hourly_df`
fails with the parse error and produces no table at all. -/
theorem make_hourly_df_malformed_time
    (r kvs : List (String × Json)) (cols : List (String × List Json))
    (ts : List Json) (s : String)
    (hr : dictGet r "hourly" = some (Json.obj kvs))
    (hcols : allArrays kvs = some cols)
    (hsame : sameLengths cols = true)
    (ht : dictGet kvs "time" = some (Json.arr ts))
    (hs : Json.str s ∈ ts) (hbad : parseTimestamp s = none) :
    make_hourly_df r = Except.error DFError.parseError := by
  have hkne : kvs ≠ [] := by
    intro h
    subst h
    simp [dictGet] at ht
  rw [make_hourly_df_obj hr hkne]
  have hmem : "time" ∈ cols.map Prod.fst := by
    rw [allArrays_keys hcols]
    exact mem_keys_of_dictGet ht
  have hcontains :
      (DataFrame.colNames ⟨cols, DFIndex.range (numRows cols)⟩).contains "time" =
        true := List.elem_eq_true_of_mem hmem
  have hlook : dictGet cols "time" = some ts := allArrays_dictGet hcols ht
  have htrav : traverseOpt cellToDatetime ts = none :=
    traverseOpt_eq_none hs (by simpa [cellToDatetime] using hbad)
  simp only [pdDataFrame, hcols, hsame, if_true, hcontains, setTimeIndex, hlook,
    htrav]

/-- Witness for C3 (amended): a single-column hourly section whose only
time entry is malformed fails with the parse error. -/
theorem make_hourly_df_malformed_time_witness :
    make_hourly_df
      [("hourly", Json.obj
        [("time", Json.arr [Json.str "garbage"]),
         ("temperature_2m", Json.arr [Json.num 7])])] =
      Except.error DFError.parseError :=
  make_hourly_df_malformed_time _ _
    [("time", [Json.str "garbage"]), ("temperature_2m", [Json.num 7])]
    [Json.str "garbage"] "garbage"
    rfl rfl rfl rfl (List.mem_cons_self _ _) rfl

/-- C9: a nonempty hourly section of parallel arrays (one common length
n) with no time key at all still yields a table, with no failure: one
row per array entry, the known field names renamed to display labels,
and the default positional index of length n instead of a timestamp
index. -/
theorem make_hourly_df_no_time
    (r kvs : List (String × Json)) (cols : List (String × List Json)) (n : Nat)
    (hr : dictGet r "hourly" = some (Json.obj kvs))
    (hne : kvs ≠ [])
    (hcols : allArrays kvs = some cols)
    (hlen : ∀ p ∈ cols, p.2.length = n)
    (hnotime : "time" ∉ kvs.map Prod.fst) :
    make_hourly_df r =
      Except.ok ⟨cols.map (fun p => (renameCol p.1, p.2)), DFIndex.range n⟩ := by
  have hcne : cols ≠ [] := by
    intro h
    subst h
    have hk := allArrays_keys hcols
    cases kvs with
    | nil => exact hne rfl
    | cons c rest => simp at hk
  have hsame : sameLengths cols = true := sameLengths_of_const hlen
  have hrows : numRows cols = n := numRows_of_const hlen hcne
  have hnott : "time" ∉ cols.map Prod.fst := by
    rw [allArrays_keys hcols]
    exact hnotime
  have hcontains : (cols.map Prod.fst).contains "time" = false := by
    rw [Bool.eq_false_iff]
    intro hc
    exact hnott (List.elem_iff.mp hc)
  rw [make_hourly_df_obj hr hne]
  simp only [pdDataFrame, hcols, hsame, if_true, DataFrame.colNames, hcontains,
    Bool.false_eq_true, if_false, renameCols, hrows]

/-- Witness for C9: two parallel two-entry arrays and no time key give a
two-row positionally indexed table with the known column renamed. -/
theorem make_hourly_df_no_time_witness :
    make_hourly_df
      [("hourly", Json.obj
        [("temperature_2m", Json.arr [Json.num 1, Json.num 2]),
         ("foo", Json.arr [Json.num 3, Json.num 4])])] =
      Except.ok
        ⟨[("Temperature (°C)", [Json.num 1, Json.num 2]),
          ("foo", [Json.num 3, Json.num 4])], DFIndex.range 2⟩ :=
  make_hourly_df_no_time _ _
    [("temperature_2m", [Json.num 1, Json.num 2]),
     ("foo", [Json.num 3, Json.num 4])] 2
    rfl (List.cons_ne_nil _ _) rfl
    (by intro p hp; simp at hp; rcases hp with rfl | rfl <;> rfl)
    (by decide)

/-- C6: for any response whose hourly section extracted into columns,
whenever normalization succeeds with a table df, the columns of df are
exactly the hourly fields (minus time when it became the index) with the
rename mapping applied to the labels; hence every unknown field is kept
under its original key with its values unchanged, only the four known
keys are renamed, and absent fields yield no column. -/
theorem make_hourly_df_unknown_passthrough
    (r kvs : List (String × Json)) (cols : List (String × List Json))
    (df : DataFrame)
    (hr : dictGet r "hourly" = some (Json.obj kvs))
    (hcols : allArrays kvs = some cols)
    (hok : make_hourly_df r = Except.ok df) :
    df.cols =
      (if "time" ∈ kvs.map Prod.fst then cols.filter (fun p => p.1 != "time")
       else cols).map (fun p => (renameCol p.1, p.2)) ∧
    (∀ k : String, ∀ v : List Json, (k, v) ∈ cols →
      k ∉ ["temperature_2m", "relative_humidity_2m", "precipitation",
           "wind_speed_10m", "time"] →
      (k, v) ∈ df.cols) ∧
    (∀ k : String,
      k ∉ ["temperature_2m", "relative_humidity_2m", "precipitation",
           "wind_speed_10m"] →
      renameCol k = k) := by
  have hid : ∀ k : String,
      k ∉ ["temperature_2m", "relative_humidity_2m", "precipitation",
           "wind_speed_10m"] → renameCol k = k := by
    intro k hk
    simp only [List.mem_cons, List.not_mem_nil, or_false, not_or] at hk
    obtain ⟨h1, h2, h3, h4⟩ := hk
    simp [renameCol, h1, h2, h3, h4]
  have hmain : df.cols =
      (if "time" ∈ kvs.map Prod.fst then cols.filter (fun p => p.1 != "time")
       else cols).map (fun p => (renameCol p.1, p.2)) := by
    by_cases hne : kvs = []
    · subst hne
      simp [allArrays] at hcols
      subst hcols
      unfold make_hourly_df at hok
      rw [hr] at hok
      simp [jsonFalsy, emptyDF] at hok
      simp [← hok]
    · rw [make_hourly_df_obj hr hne] at hok
      cases hsl : sameLengths cols with
      | false =>
        simp only [pdDataFrame, hcols, hsl, Bool.false_eq_true, if_false] at hok
        simp at hok
      | true =>
        by_cases htm : "time" ∈ kvs.map Prod.fst
        · have hmemc : "time" ∈ cols.map Prod.fst := by
            rw [allArrays_keys hcols]
            exact htm
          have hcont : (cols.map Prod.fst).contains "time" = true :=
            List.elem_eq_true_of_mem hmemc
          obtain ⟨vals, hvals⟩ := dictGet_isSome_of_mem_keys hmemc
          cases htrav : traverseOpt cellToDatetime vals with
          | none =>
            simp only [pdDataFrame, hcols, hsl, if_true, DataFrame.colNames,
              hcont, setTimeIndex, hvals, htrav] at hok
            simp at hok
          | some ts2 =>
            simp only [pdDataFrame, hcols, hsl, if_true, DataFrame.colNames,
              hcont, setTimeIndex, hvals, htrav, Except.ok.injEq] at hok
            rw [if_pos htm, ← hok]
            simp [renameCols]
        · have hmemc : "time" ∉ cols.map Prod.fst := by
            rw [allArrays_keys hcols]
            exact htm
          have hcont : (cols.map Prod.fst).contains "time" = false := by
            rw [Bool.eq_false_iff]
            intro hc
            exact hmemc (List.elem_iff.mp hc)
          simp only [pdDataFrame, hcols, hsl, if_true, DataFrame.colNames,
            hcont, Bool.false_eq_true, if_false, Except.ok.injEq] at hok
          rw [if_neg htm, ← hok]
          simp [renameCols]
  refine ⟨hmain, ?_, hid⟩
  intro k v hkv hk
  simp only [List.mem_cons, List.not_mem_nil, or_false, not_or] at hk
  obtain ⟨h1, h2, h3, h4, h5⟩ := hk
  have hkid : renameCol k = k := by
    simp [renameCol, h1, h2, h3, h4]
  rw [hmain]
  by_cases htm : "time" ∈ kvs.map Prod.fst
  · rw [if_pos htm]
    refine List.mem_map.mpr ⟨(k, v), ?_, ?_⟩
    · exact List.mem_filter.mpr ⟨hkv, by simp [h5]⟩
    · simp [hkid]
  · rw [if_neg htm]
    exact List.mem_map.mpr ⟨(k, v), hkv, by simp [hkid]⟩

/-- Witness for C6: in a section holding time, temperature_2m and an
unknown field foo, the output keeps foo under its own name with its
values unchanged. -/
theorem make_hourly_df_unknown_passthrough_witness :
    ("foo", [Json.num 1]) ∈
      (DataFrame.mk
        [("Temperature (°C)", [Json.num 10]), ("foo", [Json.num 1])]
        (DFIndex.time [Timestamp.civil 2024 1 1 0 0])).cols :=
  (make_hourly_df_unknown_passthrough
    [("hourly", Json.obj
      [("time", Json.arr [Json.str "2024-01-01T00:00"]),
       ("temperature_2m", Json.arr [Json.num 10]),
       ("foo", Json.arr [Json.num 1])])]
    [("time", Json.arr [Json.str "2024-01-01T00:00"]),
     ("temperature_2m", Json.arr [Json.num 10]),
     ("foo", Json.arr [Json.num 1])]
    [("time", [Json.str "2024-01-01T00:00"]),
     ("temperature_2m", [Json.num 10]),
     ("foo", [Json.num 1])]
    (DataFrame.mk
      [("Temperature (°C)", [Json.num 10]), ("foo", [Json.num 1])]
      (DFIndex.time [Timestamp.civil 2024 1 1 0 0]))
    rfl rfl rfl).2.1 "foo" [Json.num 1]
    (List.mem_cons_of_mem _ (List.mem_cons_of_mem _ (List.mem_cons_self _ _)))
    (by decide)
